import Mathlib

/-!
Verification of the `proc-singleton` crate (src/lib.rs), a compile-time
code-generation utility with two entry points:

* `singleton_from_static` (attribute form): re-emits a static declaration
  and appends an impl block with a `get_instance` accessor;
* `derive_singleton` (derive form): emits only the accessor impl block,
  locating the backing static's name via the helper
  `find_singleton_static_name` that scans `#[singleton(NAME)]` attributes.

The embedding models the syntactic entities the code manipulates.  The
host parsing library (`syn`) is treated as an opaque, correct dependency:
each entry point receives the result of the corresponding
`parse_macro_input!` invocation as an `Except String _` value (`.error e`
models a parse failure whose diagnostic is `e`).  Output token streams are
modelled structurally as lists of generated items.
-/

namespace ProcSingleton

/-- A path segment (`syn::PathSegment`): an identifier plus a flag recording
whether the segment carries path arguments (generics). -/
structure PathSegment where
  ident : String
  has_arguments : Bool
deriving DecidableEq

/-- A path (`syn::Path`): optional leading `::` and a list of segments. -/
structure Path where
  leading_colon : Bool
  segments : List PathSegment
deriving DecidableEq

/-- `syn::Path::get_ident`: returns the identifier iff the path has no
leading colon and exactly one segment without arguments. -/
def Path.get_ident (p : Path) : Option String :=
  match p.leading_colon, p.segments with
  | false, [seg] => if seg.has_arguments then none else some seg.ident
  | _, _ => none

/-- `syn::Path::is_ident`: true iff `get_ident` returns exactly `name`. -/
def Path.is_ident (p : Path) (name : String) : Bool :=
  match p.get_ident with
  | some i => i == name
  | none => false

/-- Build the path consisting of a single bare identifier. -/
def Path.ofIdent (s : String) : Path :=
  { leading_colon := false, segments := [{ ident := s, has_arguments := false }] }

/-- A type path (`syn::TypePath`); the qualified-self form is never
inspected by the code and is omitted. -/
structure TypePath where
  path : Path
deriving DecidableEq

/-- Build the type path consisting of a single bare identifier. -/
def TypePath.ofIdent (s : String) : TypePath :=
  { path := Path.ofIdent s }

/-- The fragment of `syn::Expr` the code distinguishes: a path expression,
a literal, or anything else (the code only ever matches `Expr::Path`). -/
inductive Expr where
  | path (p : Path)
  | lit (value : String)
  | other (descr : String)
deriving DecidableEq

/-- An attribute (`syn::Attribute`): its path, and the result of
`attr.parse_args::<syn::Expr>()` on its argument tokens (`none` models the
`Err` case, i.e. the argument tokens do not parse as an expression). -/
structure Attribute where
  path : Path
  parse_args_expr : Option Expr
deriving DecidableEq

/-- The kind of a `syn::Data` payload of a `DeriveInput`: struct, enum or
union.  The code never inspects this field, so the payloads themselves are
not modelled. -/
inductive DataKind where
  | dataStruct
  | dataEnum
  | dataUnion
deriving DecidableEq

/-- A parsed derive input (`syn::DeriveInput`): the declared type's
identifier, its attached attributes, and the kind of declaration. -/
structure DeriveInput where
  ident : String
  attrs : List Attribute
  data : DataKind
deriving DecidableEq

/-- The value type of a static declaration: a lazily-initialized wrapper
(e.g. `LazyLock<T>`), a plain type, or anything else.  The code never
inspects this field. -/
inductive StaticType where
  | lazyLock (inner : TypePath)
  | plainType (ty : TypePath)
  | otherType (descr : String)
deriving DecidableEq

/-- A parsed static declaration (`syn::ItemStatic`): visibility,
mutability, identifier, value type and initializer expression (the latter
kept opaque; the code only reads `ident` and re-emits the whole item). -/
structure ItemStatic where
  vis_pub : Bool
  mutable : Bool
  ident : String
  ty : StaticType
  init_expr : String
deriving DecidableEq

/-- The argument of the attribute form (`struct SingletonArgs`), produced
by parsing the attribute token list as a single type path. -/
structure SingletonArgs where
  type_name : TypePath
deriving DecidableEq

/-- A generated accessor function inside an impl block:
`pub fn get_instance() -> &'static <ret> { &<body_static> }`. -/
structure ImplFn where
  is_pub : Bool
  name : String
  ret : TypePath
  body_static : String
deriving DecidableEq

/-- One item of an emitted token stream: a re-emitted static declaration,
a re-emitted struct/derive-input body, or an impl block. -/
inductive GenItem where
  | staticItem (item : ItemStatic)
  | structItem (item : DeriveInput)
  | implBlock (self_ty : TypePath) (fns : List ImplFn)
deriving DecidableEq

/-- An expansion failure: either a parse failure surfaced by
`parse_macro_input!` (carrying the syntax error), or a proc-macro panic
(from `.expect`, carrying the panic message). -/
inductive ExpandError where
  | parseError (msg : String)
  | panicked (msg : String)
deriving DecidableEq

/-- The accessor function generated by both entry points. -/
def mkAccessor (ret : TypePath) (static_name : String) : ImplFn :=
  { is_pub := true, name := "get_instance", ret := ret, body_static := static_name }

/-- `find_singleton_static_name` (src/lib.rs lines 112-125): scan the
attributes in order; for the first one whose path is the identifier
`singleton` and whose argument tokens parse as a path expression that is a
single bare identifier, return that identifier; otherwise keep scanning;
return `none` if no attribute qualifies. -/
def find_singleton_static_name : List Attribute → Option String
  | [] => none
  | attr :: rest =>
    if attr.path.is_ident "singleton" then
      match attr.parse_args_expr with
      | some (Expr.path expr_path) =>
        match expr_path.get_ident with
        | some ident => some ident
        | none => find_singleton_static_name rest
      | some _ => find_singleton_static_name rest
      | none => find_singleton_static_name rest
    else find_singleton_static_name rest

/-- `singleton_from_static` (src/lib.rs lines 48-65): parse the attribute
tokens as `SingletonArgs` and the item as `ItemStatic` (a parse failure of
either aborts with that syntax error, the attribute tokens being parsed
first); on success emit the static item verbatim followed by an impl block
for the named type containing the single accessor referencing the static's
identifier. -/
def singleton_from_static (attr : Except String SingletonArgs)
    (item : Except String ItemStatic) : Except ExpandError (List GenItem) :=
  match attr with
  | .error e => .error (.parseError e)
  | .ok args =>
    match item with
    | .error e => .error (.parseError e)
    | .ok input =>
      .ok [GenItem.staticItem input,
           GenItem.implBlock args.type_name [mkAccessor args.type_name input.ident]]

/-- `derive_singleton` (src/lib.rs lines 95-110): parse the input as a
`DeriveInput` (a parse failure aborts with that syntax error); locate the
backing static's name with `find_singleton_static_name`, panicking with
the fixed message if absent; on success emit only an impl block for the
declared type containing the single accessor referencing that static. -/
def derive_singleton (input : Except String DeriveInput) :
    Except ExpandError (List GenItem) :=
  match input with
  | .error e => .error (.parseError e)
  | .ok di =>
    match find_singleton_static_name di.attrs with
    | some static_name =>
      .ok [GenItem.implBlock (TypePath.ofIdent di.ident)
             [mkAccessor (TypePath.ofIdent di.ident) static_name]]
    | none => .error (.panicked "#[singleton(STATIC_NAME)] is required")

/-- What `find_singleton_static_name` extracts from one attribute: the
identifier, when the attribute's path is `singleton` and its argument
parses as a single-bare-identifier path expression; `none` otherwise. -/
def attrYields (a : Attribute) : Option String :=
  if a.path.is_ident "singleton" then
    match a.parse_args_expr with
    | some (Expr.path p) => p.get_ident
    | _ => none
  else none

/-- Whether an attribute's path matches the marker name `singleton`. -/
def isMarker (a : Attribute) : Bool :=
  a.path.is_ident "singleton"

/-- The number of well-formed marker annotations in a list: those matching
the marker name whose argument is a single bare identifier. -/
def wellFormedMarkerCount (attrs : List Attribute) : Nat :=
  (attrs.filter (fun a => (attrYields a).isSome)).length

/-- The identifier extracted from an attribute's argument alone (ignoring
the attribute's name): `some` iff the argument tokens parse as a path
expression that is a single bare identifier. -/
def argIdent (a : Attribute) : Option String :=
  match a.parse_args_expr with
  | some (Expr.path p) => p.get_ident
  | _ => none

/-- Whether an emitted token stream contains a re-emitted struct body. -/
def containsStructItem (out : List GenItem) : Bool :=
  out.any fun g =>
    match g with
    | GenItem.structItem _ => true
    | _ => false

theorem find_cons (a : Attribute) (rest : List Attribute) :
    find_singleton_static_name (a :: rest) =
      match attrYields a with
      | some n => some n
      | none => find_singleton_static_name rest := by
  cases h : a.path.is_ident "singleton" with
  | true =>
    cases hp : a.parse_args_expr with
    | none => simp [find_singleton_static_name, attrYields, h, hp]
    | some e =>
      cases e with
      | path p =>
        cases hg : p.get_ident <;>
          simp [find_singleton_static_name, attrYields, h, hp, hg]
      | lit v => simp [find_singleton_static_name, attrYields, h, hp]
      | other d => simp [find_singleton_static_name, attrYields, h, hp]
  | false => simp [find_singleton_static_name, attrYields, h]

theorem find_none_of_all_none {attrs : List Attribute}
    (h : ∀ a ∈ attrs, attrYields a = none) :
    find_singleton_static_name attrs = none := by
  induction attrs with
  | nil => rfl
  | cons a rest ih =>
    rw [find_cons, h a (List.mem_cons_self a rest)]
    exact ih fun b hb => h b (List.mem_cons_of_mem a hb)

theorem find_eq_none_iff (attrs : List Attribute) :
    find_singleton_static_name attrs = none ↔ ∀ a ∈ attrs, attrYields a = none := by
  constructor
  · intro h a ha
    induction attrs with
    | nil => cases ha
    | cons x rest ih =>
      rw [find_cons] at h
      cases hy : attrYields x with
      | some n => rw [hy] at h; cases h
      | none =>
        rw [hy] at h
        cases ha with
        | head => exact hy
        | tail _ hmem => exact ih h hmem
  · exact find_none_of_all_none

/-- Claim C1: whenever the attribute token list parses as a single type
path and the item parses as a static declaration, `singleton_from_static`
emits exactly the original static declaration verbatim followed by an impl
block for the named type containing exactly one accessor method whose body
references the static by its identifier. -/
theorem singleton_from_static_emits_static_then_accessor
    (args : SingletonArgs) (st : ItemStatic) :
    singleton_from_static (.ok args) (.ok st) =
      .ok [GenItem.staticItem st,
           GenItem.implBlock args.type_name [mkAccessor args.type_name st.ident]] := rfl

/-- Claim C6: if the attribute token list fails to parse as a single type
path, or the item fails to parse as a static declaration, then
`singleton_from_static` aborts with a parse-failure diagnostic carrying
the syntax error and emits no generated items. -/
theorem singleton_from_static_parse_failure_aborts
    (e : String) (item : Except String ItemStatic) (args : SingletonArgs) :
    singleton_from_static (.error e) item = .error (.parseError e) ∧
    singleton_from_static (.ok args) (.error e) = .error (.parseError e) := by
  constructor
  · rfl
  · rfl

/-- Claim C8: both entry points are pure, deterministic functions of their
input: on identical inputs they produce identical results, with no state
shared between invocations (the embedding threads no state at all). -/
theorem entry_points_deterministic
    (attr attr2 : Except String SingletonArgs) (item item2 : Except String ItemStatic)
    (input input2 : Except String DeriveInput) :
    (attr = attr2 → item = item2 →
      singleton_from_static attr item = singleton_from_static attr2 item2) ∧
    (input = input2 → derive_singleton input = derive_singleton input2) := by
  constructor
  · intro h1 h2; rw [h1, h2]
  · intro h; rw [h]

/-- Claim C8 witness: determinism instantiated at a concrete input. -/
theorem entry_points_deterministic_witness :
    singleton_from_static (.error "e") (.error "e") =
      singleton_from_static (.error "e") (.error "e") ∧
    derive_singleton (.error "e") = derive_singleton (.error "e") := by
  have h := entry_points_deterministic (.error "e") (.error "e") (.error "e") (.error "e")
    (.error "e") (.error "e")
  exact ⟨h.1 rfl rfl, h.2 rfl⟩

/-- Claim C10: `singleton_from_static` performs no check that the static
is lazily-initialized: a static declaration of any value type, in
particular a plain non-lazy one, is accepted and re-emitted together with
the generated accessor referencing it. -/
theorem singleton_from_static_no_lazy_check
    (args : SingletonArgs) (vp m : Bool) (name : String) (ty : StaticType) (e : String) :
    singleton_from_static (.ok args)
        (.ok { vis_pub := vp, mutable := m, ident := name, ty := ty, init_expr := e }) =
      .ok [GenItem.staticItem
             { vis_pub := vp, mutable := m, ident := name, ty := ty, init_expr := e },
           GenItem.implBlock args.type_name [mkAccessor args.type_name name]] := rfl

theorem attrYields_eq_ite (a : Attribute) :
    attrYields a = if a.path.is_ident "singleton" then argIdent a else none := rfl

theorem attrYields_of_not_marker {a : Attribute} (h : isMarker a = false) :
    attrYields a = none := by
  rw [attrYields_eq_ite]
  simp [isMarker] at h
  simp [h]

theorem find_of_filter_single {attrs : List Attribute} {a : Attribute} {n : String}
    (h1 : attrs.filter isMarker = [a]) (h2 : attrYields a = some n) :
    find_singleton_static_name attrs = some n := by
  induction attrs with
  | nil => rw [List.filter_nil] at h1; exact List.noConfusion h1
  | cons x rest ih =>
    rw [List.filter_cons] at h1
    cases hm : isMarker x with
    | true =>
      rw [hm] at h1
      simp only [if_true] at h1
      obtain ⟨hxa, _⟩ := List.cons.injEq x (rest.filter isMarker) a [] |>.mp h1
      rw [find_cons, hxa, h2]
    | false =>
      rw [hm] at h1
      simp at h1
      rw [find_cons, attrYields_of_not_marker hm]
      exact ih h1

theorem find_none_of_filter_single_malformed {attrs : List Attribute} {a : Attribute}
    (h1 : attrs.filter isMarker = [a]) (h2 : argIdent a = none) :
    find_singleton_static_name attrs = none := by
  apply find_none_of_all_none
  intro x hx
  cases hm : isMarker x with
  | true =>
    have hxf : x ∈ attrs.filter isMarker := List.mem_filter.mpr ⟨hx, hm⟩
    rw [h1] at hxf
    have hxa : x = a := List.mem_singleton.mp hxf
    rw [hxa, attrYields_eq_ite]
    cases hib : a.path.is_ident "singleton" <;> simp [hib, h2]
  | false => exact attrYields_of_not_marker hm

theorem find_none_iff_count_zero (attrs : List Attribute) :
    find_singleton_static_name attrs = none ↔ wellFormedMarkerCount attrs = 0 := by
  rw [find_eq_none_iff, wellFormedMarkerCount, List.length_eq_zero,
    List.filter_eq_nil_iff]
  constructor
  · intro h a ha
    simp [h a ha]
  · intro h a ha
    cases hy : attrYields a with
    | none => rfl
    | some n =>
      have hmem := h a ha
      rw [hy] at hmem
      simp at hmem

/-- Claim C2: for a derive input whose attributes contain exactly one
marker annotation, and that annotation's argument is a single bare
identifier, `derive_singleton` emits exactly one impl block with one
accessor method referencing that identifier, and the output contains no
re-emitted struct body. -/
theorem derive_single_marker_emits_accessor
    (di : DeriveInput) (a : Attribute) (n : String)
    (h1 : di.attrs.filter isMarker = [a]) (h2 : attrYields a = some n) :
    derive_singleton (.ok di) =
      .ok [GenItem.implBlock (TypePath.ofIdent di.ident)
             [mkAccessor (TypePath.ofIdent di.ident) n]] ∧
    containsStructItem
      [GenItem.implBlock (TypePath.ofIdent di.ident)
         [mkAccessor (TypePath.ofIdent di.ident) n]] = false := by
  refine ⟨?_, rfl⟩
  simp [derive_singleton, find_of_filter_single h1 h2]

/-- Claim C2 witness: a struct `Identifier` carrying the single marker
annotation with argument `IDENT` expands to exactly the accessor impl
block, with no struct body in the output. -/
theorem derive_single_marker_emits_accessor_witness :
    derive_singleton (.ok
        { ident := "Identifier",
          attrs := [{ path := Path.ofIdent "singleton",
                      parse_args_expr := some (Expr.path (Path.ofIdent "IDENT")) }],
          data := DataKind.dataStruct }) =
      .ok [GenItem.implBlock (TypePath.ofIdent "Identifier")
             [mkAccessor (TypePath.ofIdent "Identifier") "IDENT"]] ∧
    containsStructItem
      [GenItem.implBlock (TypePath.ofIdent "Identifier")
         [mkAccessor (TypePath.ofIdent "Identifier") "IDENT"]] = false :=
  derive_single_marker_emits_accessor
    { ident := "Identifier",
      attrs := [{ path := Path.ofIdent "singleton",
                  parse_args_expr := some (Expr.path (Path.ofIdent "IDENT")) }],
      data := DataKind.dataStruct }
    { path := Path.ofIdent "singleton",
      parse_args_expr := some (Expr.path (Path.ofIdent "IDENT")) }
    "IDENT" (by decide) (by decide)

/-- Claim C3: for a derive input with zero marker annotations,
`derive_singleton` aborts with the fixed required-marker failure and
produces no output items. -/
theorem derive_no_marker_aborts (di : DeriveInput)
    (h : ∀ a ∈ di.attrs, isMarker a = false) :
    derive_singleton (.ok di) =
      .error (.panicked "#[singleton(STATIC_NAME)] is required") := by
  have hfind : find_singleton_static_name di.attrs = none :=
    find_none_of_all_none fun a ha => attrYields_of_not_marker (h a ha)
  simp [derive_singleton, hfind]

/-- Claim C3 witness: a struct `Identifier` with no attributes at all
aborts with the required-marker failure. -/
theorem derive_no_marker_aborts_witness :
    derive_singleton (.ok
        { ident := "Identifier", attrs := [], data := DataKind.dataStruct }) =
      .error (.panicked "#[singleton(STATIC_NAME)] is required") :=
  derive_no_marker_aborts
    { ident := "Identifier", attrs := [], data := DataKind.dataStruct }
    (by intro a ha; cases ha)

/-- Claim C4: when the only marker-matching annotation carries an argument
that is not a single bare identifier, the locator returns absence and
`derive_singleton` aborts with exactly the same failure as in the
zero-annotation case (no distinct diagnostic for the malformed marker). -/
theorem derive_malformed_marker_same_as_missing
    (di : DeriveInput) (a : Attribute)
    (h1 : di.attrs.filter isMarker = [a]) (h2 : argIdent a = none) :
    find_singleton_static_name di.attrs = none ∧
    derive_singleton (.ok di) =
      .error (.panicked "#[singleton(STATIC_NAME)] is required") ∧
    derive_singleton (.ok di) =
      derive_singleton (.ok { ident := di.ident, attrs := [], data := di.data }) := by
  have hfind := find_none_of_filter_single_malformed h1 h2
  refine ⟨hfind, ?_, ?_⟩
  · simp [derive_singleton, hfind]
  · simp [derive_singleton, hfind, find_singleton_static_name]

/-- Claim C4 witness: a struct `Identifier` whose only marker annotation
is `singleton(3)` (a literal argument) yields locator absence and the very
failure of the annotation-free input. -/
theorem derive_malformed_marker_same_as_missing_witness :
    find_singleton_static_name
        [{ path := Path.ofIdent "singleton",
           parse_args_expr := some (Expr.lit "3") }] = none ∧
    derive_singleton (.ok
        { ident := "Identifier",
          attrs := [{ path := Path.ofIdent "singleton",
                      parse_args_expr := some (Expr.lit "3") }],
          data := DataKind.dataStruct }) =
      .error (.panicked "#[singleton(STATIC_NAME)] is required") ∧
    derive_singleton (.ok
        { ident := "Identifier",
          attrs := [{ path := Path.ofIdent "singleton",
                      parse_args_expr := some (Expr.lit "3") }],
          data := DataKind.dataStruct }) =
      derive_singleton (.ok
        { ident := "Identifier", attrs := [], data := DataKind.dataStruct }) :=
  derive_malformed_marker_same_as_missing
    { ident := "Identifier",
      attrs := [{ path := Path.ofIdent "singleton",
                  parse_args_expr := some (Expr.lit "3") }],
      data := DataKind.dataStruct }
    { path := Path.ofIdent "singleton", parse_args_expr := some (Expr.lit "3") }
    (by decide) (by decide)

/-- Claim C5: the locator scans annotations in declaration order and
returns the identifier of the first annotation that matches the marker
name and parses as a single bare identifier path; any later annotations,
well-formed duplicates included, do not affect the result and cause no
error. -/
theorem find_first_match_wins
    (pre : List Attribute) (a : Attribute) (post : List Attribute) (n : String)
    (h1 : ∀ b ∈ pre, attrYields b = none) (h2 : attrYields a = some n) :
    find_singleton_static_name (pre ++ a :: post) = some n := by
  induction pre with
  | nil => rw [List.nil_append, find_cons, h2]
  | cons x xs ih =>
    rw [List.cons_append, find_cons, h1 x (List.mem_cons_self x xs)]
    exact ih fun b hb => h1 b (List.mem_cons_of_mem x hb)

/-- Claim C5 witness: with a non-marker annotation first, then
`singleton(FIRST)`, then a well-formed duplicate `singleton(SECOND)`, the
locator returns `FIRST`. -/
theorem find_first_match_wins_witness :
    find_singleton_static_name
        ([{ path := Path.ofIdent "derive", parse_args_expr := none }] ++
          { path := Path.ofIdent "singleton",
            parse_args_expr := some (Expr.path (Path.ofIdent "FIRST")) } ::
          [{ path := Path.ofIdent "singleton",
             parse_args_expr := some (Expr.path (Path.ofIdent "SECOND")) }]) =
      some "FIRST" :=
  find_first_match_wins
    [{ path := Path.ofIdent "derive", parse_args_expr := none }]
    { path := Path.ofIdent "singleton",
      parse_args_expr := some (Expr.path (Path.ofIdent "FIRST")) }
    [{ path := Path.ofIdent "singleton",
       parse_args_expr := some (Expr.path (Path.ofIdent "SECOND")) }]
    "FIRST" (by decide) (by decide)

/-- Claim C7 counterexample: an input with two well-formed marker
annotations — a count other than one — is not a hard failure: expansion
succeeds, using the first marker's argument. -/
theorem derive_two_markers_succeeds :
    wellFormedMarkerCount
        [{ path := Path.ofIdent "singleton",
           parse_args_expr := some (Expr.path (Path.ofIdent "STATIC_A")) },
         { path := Path.ofIdent "singleton",
           parse_args_expr := some (Expr.path (Path.ofIdent "STATIC_B")) }] = 2 ∧
    derive_singleton (.ok
        { ident := "Identifier",
          attrs := [{ path := Path.ofIdent "singleton",
                      parse_args_expr := some (Expr.path (Path.ofIdent "STATIC_A")) },
                    { path := Path.ofIdent "singleton",
                      parse_args_expr := some (Expr.path (Path.ofIdent "STATIC_B")) }],
          data := DataKind.dataStruct }) =
      .ok [GenItem.implBlock (TypePath.ofIdent "Identifier")
             [mkAccessor (TypePath.ofIdent "Identifier") "STATIC_A"]] :=
  ⟨by decide, rfl⟩

/-- Claim C7 amended: the derive-form transformer requires at least one
well-formed marker annotation, not exactly one: expansion fails with the
fixed required-marker message exactly when the count of well-formed marker
annotations is zero; with more than one, the first wins and expansion
succeeds. -/
theorem derive_fails_iff_no_wellformed_marker (di : DeriveInput) :
    derive_singleton (.ok di) =
        .error (.panicked "#[singleton(STATIC_NAME)] is required") ↔
      wellFormedMarkerCount di.attrs = 0 := by
  rw [← find_none_iff_count_zero]
  cases hf : find_singleton_static_name di.attrs with
  | none => simp [derive_singleton, hf]
  | some n => simp [derive_singleton, hf]

/-- Claim C7 amended witness: the equivalence applied to the marker-free
input, whose well-formed-marker count is zero. -/
theorem derive_fails_iff_no_wellformed_marker_witness :
    derive_singleton (.ok
        { ident := "Identifier", attrs := [], data := DataKind.dataStruct }) =
      .error (.panicked "#[singleton(STATIC_NAME)] is required") :=
  (derive_fails_iff_no_wellformed_marker
    { ident := "Identifier", attrs := [], data := DataKind.dataStruct }).mpr (by decide)

/-- Claim C9: `derive_singleton` performs no struct-only validation: any
derive input — struct, enum or union alike — whose attributes make the
locator succeed expands successfully to the accessor impl block for the
declared type's name. -/
theorem derive_no_struct_only_validation
    (ident : String) (attrs : List Attribute) (data : DataKind) (n : String)
    (h : find_singleton_static_name attrs = some n) :
    derive_singleton (.ok { ident := ident, attrs := attrs, data := data }) =
      .ok [GenItem.implBlock (TypePath.ofIdent ident)
             [mkAccessor (TypePath.ofIdent ident) n]] := by
  simp [derive_singleton, h]

/-- Claim C9 witness: an enum declaration with a well-formed marker
annotation expands successfully to the accessor impl block. -/
theorem derive_no_struct_only_validation_witness :
    derive_singleton (.ok
        { ident := "Identifier",
          attrs := [{ path := Path.ofIdent "singleton",
                      parse_args_expr := some (Expr.path (Path.ofIdent "IDENT")) }],
          data := DataKind.dataEnum }) =
      .ok [GenItem.implBlock (TypePath.ofIdent "Identifier")
             [mkAccessor (TypePath.ofIdent "Identifier") "IDENT"]] :=
  derive_no_struct_only_validation "Identifier"
    [{ path := Path.ofIdent "singleton",
       parse_args_expr := some (Expr.path (Path.ofIdent "IDENT")) }]
    DataKind.dataEnum "IDENT" (by decide)

end ProcSingleton
